import Mathlib

/-!
Shallow embedding of the Ortery turntable driver
(src/turntable/turntable/ortery_driver.py).

Each driver operation shells out to the vendor tool and classifies the raw
text output it gets back.  We embed every operation as a pure function of
that output text (the Transport result); operations that validate their
arguments before invoking Transport additionally return the number of
Transport invocations performed (0 when validation rejects the call, 1
otherwise), and the busy-polling operation get_property_data takes the whole
sequence of Transport outputs and reports how many it consumed.

Python exceptions become constructors of OrteryError:
  UnexpectedOutputException  -> unexpectedOutput   (the ParseFailure kind)
  InvalidIdException         -> invalidId          (the InvalidDevice kind)
  Get/Set...Unsupported...   -> the corresponding constructors
                                (the OperationUnsupported kind, 0x004000a)
  ...NotSupport...           -> the corresponding constructors
                                (the NotSupportedByDevice kind, 0x0040005)
  ValueError                 -> valueError msg     (the ValidationError kind)
Argument checks that are pure Python type tests (type(x) is int, is list,
is None) are subsumed by the Lean types of the embedded functions.
-/

namespace Ortery

deriving instance DecidableEq for Except

/-- Typed failures of the driver, one constructor per Python exception
class raised in ortery_driver.py (payloads other than the ValueError
message are dropped; they never influence control flow). -/
inductive OrteryError where
  | unexpectedOutput
  | invalidId
  | getPropertyValueUnsupported
  | getPropertyDeviceNotSupportProperty
  | setPropertyValueUnsupported
  | setPropertyDeviceNotSupport
  | setPropertiesValueUnsupported
  | setPropertyDeviceNotSupportProperty
  | commandUnsupported
  | commandNotSupportedByDevice
  | valueError (msg : String)
  deriving DecidableEq, Repr

/-- Whether an Except value is a success. -/
def isOk {ε α : Type} : Except ε α → Bool
  | .ok _ => true
  | .error _ => false

/-- Value of a digit string, as computed by Python int() on a [0-9]+ match. -/
def digitsToNat (l : List Char) : Nat :=
  l.foldl (fun a c => a * 10 + (c.toNat - 48)) 0

/-- Python int() applied to a string of decimal digits. -/
def strToNat (s : String) : Nat := digitsToNat s.data

/-- SSHOptions: user, host and optional password (None in Python is none;
the Python truthiness test treats an empty string like None). -/
structure SSHOptions where
  user : String
  host : String
  password : Option String
  deriving DecidableEq, Repr

/-- SSHOptions.build_command: wraps a command for remote execution.  The
password part is present exactly when the password is truthy in Python,
that is, neither None nor the empty string.  The literal segments of the
two f-strings of the source are split here at the substrings the
round-trip property names; their concatenation is character-for-character
the source text (see build_command_flattened below). -/
def SSHOptions.build_command (o : SSHOptions) (command : String) : String :=
  let pwpart : String :=
    match o.password with
    | some p => if p = "" then "" else "sshpass -p \x27" ++ p ++ "\x27" ++ " "
    | none => ""
  pwpart ++ "ssh -o " ++ "StrictHostKeyChecking=no" ++ " -o LogLevel=QUIET "
    ++ o.user ++ "@" ++ o.host ++ " \"" ++ command ++ "\""

/-- The substring relation on strings used to state the round-trip facts:
needle occurs contiguously inside hay. -/
def containsStr (hay needle : String) : Prop :=
  ∃ a b : List Char, a ++ needle.data ++ b = hay.data

/-- re.search of the pattern anchored caret ([0-9]+) backslash-r
backslash-n dollar against the output, returning the tuple of captured
groups on a match.  The pattern has exactly one group; a dollar in Python
also matches just before one trailing newline. -/
def searchDeviceCount (s : String) : Option (List String) :=
  if s.data.takeWhile Char.isDigit = [] then none
  else if s.data = s.data.takeWhile Char.isDigit ++ [ '\r', '\n' ] ∨
      s.data = s.data.takeWhile Char.isDigit ++ [ '\r', '\n', '\n' ]
  then some [String.mk (s.data.takeWhile Char.isDigit)]
  else none

/-- get_device_count: parses the device count from the output.  Mirrors the
source guard literally: it raises UnexpectedOutputException when the match
failed or when the match produced fewer than 2 groups — although the
pattern only ever produces 1 group. -/
def get_device_count (output : String) : Except OrteryError Nat :=
  match searchDeviceCount output with
  | none => .error .unexpectedOutput
  | some gs =>
    if gs.length < 2 then .error .unexpectedOutput
    else .ok (strToNat (gs.getD 0 ""))

/-- DeviceInfo as constructed by the source: product_name is the first
captured group and device_i the second; both are strings in the source
(DeviceInfo(m.group(1), m.group(2)) performs no int conversion). -/
structure DeviceInfo where
  product_name : String
  device_i : String
  deriving DecidableEq, Repr

/-- Strip an expected literal prefix from a character list. -/
def dropLit : List Char → List Char → Option (List Char)
  | [], s => some s
  | _ :: _, [] => none
  | c :: cs, d :: ds => if c = d then dropLit cs ds else none

/-- Character class [A-Za-z0-9 ] of the product-name group. -/
def isNameChar (c : Char) : Bool := c.isAlphanum || c = ' '

/-- re.search of the anchored two-group pattern
Product Name : ([A-Za-z0-9 ]+) CRLF Device ID : ([0-9]+) CRLF
returning the tuple of the two captured groups on a match.  Greedy
maximal-run matching is exact here because neither class contains CR. -/
def searchInfoPattern (s : String) : Option (List String) :=
  match dropLit "Product Name : ".data s.data with
  | none => none
  | some r1 =>
    if r1.takeWhile isNameChar = [] then none
    else
      match dropLit "\r\nDevice ID : ".data (r1.dropWhile isNameChar) with
      | none => none
      | some r2 =>
        if r2.takeWhile Char.isDigit = [] then none
        else
          match dropLit [ '\r', '\n' ] (r2.dropWhile Char.isDigit) with
          | none => none
          | some _ => some [String.mk (r1.takeWhile isNameChar),
                            String.mk (r2.takeWhile Char.isDigit)]

/-- Sentinel emitted by the vendor tool for get_device_info on an invalid
id or offline device. -/
def gdiInvalidSentinel : String :=
  "get_device_info :  command exec fail ( error code : 0x0040001)\r\n"

/-- get_device_info: sentinel check first, then the two-group pattern
match.  Mirrors the source guard literally: it raises when the match
failed or produced fewer than 3 groups — although the pattern only ever
produces 2 groups. -/
def get_device_info (output : String) : Except OrteryError DeviceInfo :=
  if output = gdiInvalidSentinel then .error .invalidId
  else
    match searchInfoPattern output with
    | none => .error .unexpectedOutput
    | some gs =>
      if gs.length < 3 then .error .unexpectedOutput
      else .ok ⟨gs.getD 0 "", gs.getD 1 ""⟩

/-- A command descriptor: symbolic name, numeric value, human description
(the namedtuple Command of the source). -/
structure Command where
  name : String
  value : Nat
  description : String
  deriving DecidableEq, Repr

/-- The static command table command_dict, keyed by numeric id. -/
def command_dict (id : Nat) : Option Command :=
  if id = 12801 then
    some ⟨"otadDEVICE_COMMAND_CABLERLEASE_OFF", 12801, "Shutter Release OFF"⟩
  else if id = 12802 then
    some ⟨"otadDEVICE_COMMAND_CABLERLEASE_HALFWAY", 12802,
          "Shutter Release Halfway (Focus)"⟩
  else if id = 12803 then
    some ⟨"otadDEVICE_COMMAND_CABLERLEASE_COMPLETELY", 12803,
          "Shutter Release Completely (Snap)"⟩
  else if id = 13057 then
    some ⟨"otadDEVICE_COMMAND_TURNTABLE_STOP", 13057, "Stop the turntable"⟩
  else if id = 13058 then
    some ⟨"otadDEVICE_COMMAND_TURNTABLE_RELEASE", 13058,
          "Release the motor of turntable"⟩
  else if id = 16641 then
    some ⟨"otadDEVICE_PROPERTY_TURNTABLE_STATE", 16641, "State of turntable"⟩
  else none

/-- Result of a command-descriptor lookup: a known Command or the
UnknownCommand null object. -/
inductive CommandDesc where
  | known (c : Command)
  | unknown
  deriving DecidableEq, Repr

/-- command_dict.get with UnknownCommand() as default. -/
def cmdLookup (id : Nat) : CommandDesc :=
  match command_dict id with
  | some c => .known c
  | none => .unknown

/-- A property descriptor (the namedtuple Property of the source). -/
structure Property where
  name : String
  value : Nat
  description : String
  deriving DecidableEq, Repr

/-- The static property table property_dict, keyed by numeric id. -/
def property_dict (id : Nat) : Option Property :=
  if id = 16641 then
    some ⟨"otadDEVICE_PROPERTY_TURNTABLE_STATE", 16641, "State of turntable"⟩
  else if id = 16643 then
    some ⟨"otadDEVICE_PROPERTY_TURNTABLE_TOTAL_STEPS", 16643,
          "Total step of turntable"⟩
  else none

/-- Result of a property-descriptor lookup: a known Property or the
UnknownProperty null object. -/
inductive PropertyDesc where
  | known (p : Property)
  | unknown
  deriving DecidableEq, Repr

/-- property_dict.get with UnknownProperty() as default. -/
def propLookup (id : Nat) : PropertyDesc :=
  match property_dict id with
  | some p => .known p
  | none => .unknown

/-- Scanner for re.findall of the pattern ([0-9]+) CRLF: acc holds the
digit run accumulated so far.  A digit extends the run; CR LF right after
a non-empty run emits the run; any other character discards the run,
because no position inside a digit run or at a non-digit can start a new
match of the pattern. -/
def findIdsAux : List Char → List Char → List Nat
  | [], _ => []
  | '\r' :: '\n' :: tail, acc =>
    if acc = [] then findIdsAux tail []
    else digitsToNat acc :: findIdsAux tail []
  | c :: rest, acc =>
    if c.isDigit then findIdsAux rest (acc ++ [c])
    else findIdsAux rest []

/-- re.findall of the pattern ([0-9]+) CRLF over the output: every maximal
digit run that is immediately followed by CRLF, in order, converted by
int().  Leftmost non-overlapping scanning with a greedy group is exactly
this, because a shorter suffix of a digit run is still followed by a
digit, never by CR. -/
def findIds (l : List Char) : List Nat := findIdsAux l []

/-- Sentinel emitted by the vendor tool for get_command_desc on an invalid
id or offline device. -/
def gcdInvalidSentinel : String :=
  "get_command_desc :  command exec fail ( error code : 0x0040001)\r\n"

/-- get_command_desc: sentinel check, then findall of ids, each mapped
through the static table with UnknownCommand() as default. -/
def get_command_desc (output : String) : Except OrteryError (List CommandDesc) :=
  if output = gcdInvalidSentinel then .error .invalidId
  else .ok ((findIds output.data).map cmdLookup)

/-- Sentinel emitted by the vendor tool for get_property_desc on an
invalid id or offline device. -/
def gpdescInvalidSentinel : String :=
  "get_property_desc :  command exec fail ( error code : 0x0040001)\r\n"

/-- get_property_desc: sentinel check, then findall of ids, each mapped
through the static table with UnknownProperty() as default. -/
def get_property_desc (output : String) :
    Except OrteryError (List PropertyDesc) :=
  if output = gpdescInvalidSentinel then .error .invalidId
  else .ok ((findIds output.data).map propLookup)

/-- get_property_data sentinel for err 0x0040001 (invalid id or offline). -/
def gpdInvalidSentinel : String :=
  "get_property_data :  command exec fail ( error code : 0x0040001)\r\n"

/-- get_property_data sentinel for error 0x004000a (unsupported). -/
def gpdUnsupportedSentinel : String :=
  "get_property_data :  command exec fail ( error code : 0x004000a)\r\n"

/-- get_property_data sentinel for error 0x0040005 (not supported by this
device). -/
def gpdNotSupportedSentinel : String :=
  "get_property_data :  command exec fail ( error code : 0x0040005)\r\n"

/-- Body of the while-not-responded loop of get_property_data, consuming
successive Transport outputs: empty output means retry, the three
sentinels raise, otherwise the leading digit run is the value via
re.search of caret ([0-9]+) — raising when the output does not start with
a digit.  Returns the outcome with the number of Transport calls made, or
none when the given output sequence runs out while still retrying. -/
def get_property_data_loop (outputs : List String) (calls : Nat) :
    Option ((Except OrteryError Nat) × Nat) :=
  match outputs with
  | [] => none
  | output :: rest =>
    if output = "" then get_property_data_loop rest (calls + 1)
    else if output = gpdInvalidSentinel then
      some (.error .invalidId, calls + 1)
    else if output = gpdUnsupportedSentinel then
      some (.error .getPropertyValueUnsupported, calls + 1)
    else if output = gpdNotSupportedSentinel then
      some (.error .getPropertyDeviceNotSupportProperty, calls + 1)
    else
      match output.data.takeWhile Char.isDigit with
      | [] => some (.error .unexpectedOutput, calls + 1)
      | ds => some (.ok (digitsToNat ds), calls + 1)

/-- get_property_data run against a finite script of Transport outputs. -/
def get_property_data (outputs : List String) :
    Option ((Except OrteryError Nat) × Nat) :=
  get_property_data_loop outputs 0

/-- set_property_data sentinels for the three error codes. -/
def spdInvalidSentinel : String :=
  "set_property_data :  command exec fail ( error code : 0x0040001)\r\n"

/-- set_property_data sentinel for error 0x004000a. -/
def spdUnsupportedSentinel : String :=
  "set_property_data :  command exec fail ( error code : 0x004000a)\r\n"

/-- set_property_data sentinel for error 0x0040005. -/
def spdNotSupportedSentinel : String :=
  "set_property_data :  command exec fail ( error code : 0x0040005)\r\n"

/-- set_property_data: classifies the single Transport output against the
three sentinels and otherwise returns True; no parsing of the output is
performed.  The None-argument checks of the source are subsumed by the
types. -/
def set_property_data (output : String) : Except OrteryError Bool :=
  if output = spdInvalidSentinel then .error .invalidId
  else if output = spdUnsupportedSentinel then
    .error .setPropertyValueUnsupported
  else if output = spdNotSupportedSentinel then
    .error .setPropertyDeviceNotSupport
  else .ok true

/-- set_properties_data sentinels for the three error codes. -/
def sprInvalidSentinel : String :=
  "set_properties_data :  command exec fail ( error code : 0x0040001)\r\n"

/-- set_properties_data sentinel for error 0x004000a. -/
def sprUnsupportedSentinel : String :=
  "set_properties_data :  command exec fail ( error code : 0x004000a)\r\n"

/-- set_properties_data sentinel for error 0x0040005. -/
def sprNotSupportedSentinel : String :=
  "set_properties_data :  command exec fail ( error code : 0x0040005)\r\n"

/-- set_properties_data: validates the property list size before any
Transport call (second component 0), then classifies the single Transport
output (second component 1).  The type checks on device_i and properties
are subsumed by the types. -/
def set_properties_data (device_i : Int) (properties : List Int) (data : Int)
    (transport : String) : (Except OrteryError Bool) × Nat :=
  if properties.length = 0 then
    (.error (.valueError "At least one property should be specified"), 0)
  else if 20 < properties.length then
    (.error (.valueError "Maximum of 20 properties can be set at a time"), 0)
  else if transport = sprInvalidSentinel then (.error .invalidId, 1)
  else if transport = sprUnsupportedSentinel then
    (.error .setPropertiesValueUnsupported, 1)
  else if transport = sprNotSupportedSentinel then
    (.error .setPropertyDeviceNotSupportProperty, 1)
  else (.ok true, 1)

/-- send_command sentinels for the three error codes. -/
def scInvalidSentinel : String :=
  "send_command :  command exec fail ( error code : 0x0040001)\r\n"

/-- send_command sentinel for error 0x004000a. -/
def scUnsupportedSentinel : String :=
  "send_command :  command exec fail ( error code : 0x004000a)\r\n"

/-- send_command sentinel for error 0x0040005. -/
def scNotSupportedSentinel : String :=
  "send_command :  command exec fail ( error code : 0x0040005)\r\n"

/-- send_command: classifies the single Transport output against the three
sentinels and otherwise returns True; no parsing of the output is
performed. -/
def send_command (output : String) : Except OrteryError Bool :=
  if output = scInvalidSentinel then .error .invalidId
  else if output = scUnsupportedSentinel then .error .commandUnsupported
  else if output = scNotSupportedSentinel then
    .error .commandNotSupportedByDevice
  else .ok true

/-- turntable sentinel for error 0x0040001. -/
def ttInvalidSentinel : String :=
  "turntable :  command exec fail ( error code : 0x0040001)\r\n"

/-- turntable: validates speed, direction and step, in that order, before
any Transport call (second component 0); then classifies the single
Transport output (second component 1). -/
def turntable (device_i speed direction step : Int) (transport : String) :
    (Except OrteryError Bool) × Nat :=
  if speed < 0 ∨ 2 < speed then
    (.error (.valueError "The range for speed is from 0 to 2"), 0)
  else if direction ≠ 0 ∧ direction ≠ 1 then
    (.error (.valueError "The accepted values for direction are 0 and 1."), 0)
  else if step < 0 ∨ 665535 < step then
    (.error (.valueError "The range for step is from 0 to 665535"), 0)
  else if transport = ttInvalidSentinel then (.error .invalidId, 1)
  else (.ok true, 1)

/-! Theorems.  Claim identifiers refer to the specification claims about
the driver; each claim theorem states the property over the embedded
operations above. -/

/-- A successful device-count match always captures exactly one group. -/
theorem searchDeviceCount_length (s : String) (gs : List String)
    (h : searchDeviceCount s = some gs) : gs.length = 1 := by
  unfold searchDeviceCount at h
  split_ifs at h
  all_goals first
    | exact Option.noConfusion h
    | (injection h with h3; subst h3; rfl)

/-- A successful device-info match always captures exactly two groups. -/
theorem searchInfoPattern_length (s : String) (gs : List String)
    (h : searchInfoPattern s = some gs) : gs.length = 2 := by
  unfold searchInfoPattern at h
  repeat' split at h
  all_goals first
    | exact Option.noConfusion h
    | (injection h with h3; subst h3; rfl)

/-- C1: the claim says get_device_count returns the parsed count on a
digits-CRLF line and ParseFailure otherwise.  The code disagrees: its
guard demands at least 2 regex groups while the pattern captures exactly
1, so every output — including the well-formed "5\r\n" — raises
UnexpectedOutputException and the function never succeeds. -/
theorem get_device_count_groups_guard_bug :
    get_device_count "5\r\n" = .error .unexpectedOutput ∧
    ∀ o : String, isOk (get_device_count o) = false := by
  constructor
  · decide
  · intro o
    cases h : searchDeviceCount o with
    | none => simp [get_device_count, h, isOk]
    | some gs =>
      have hlen : gs.length = 1 := searchDeviceCount_length o gs h
      simp [get_device_count, h, hlen, isOk]

/-- C2: the claim says get_device_info returns the parsed
productName/deviceId pair on the two-field pattern.  The code disagrees:
its guard demands at least 3 regex groups while the pattern captures
exactly 2, so the well-formed Photobench output raises
UnexpectedOutputException and the function never succeeds (moreover the
source would store the device id as the raw matched string, not an
integer). -/
theorem get_device_info_groups_guard_bug :
    get_device_info "Product Name : Photobench E\r\nDevice ID : 3\r\n"
      = .error .unexpectedOutput ∧
    ∀ o : String, isOk (get_device_info o) = false := by
  constructor
  · decide
  · intro o
    by_cases hs : o = gdiInvalidSentinel
    · simp [get_device_info, hs, isOk]
    · cases h : searchInfoPattern o with
      | none => simp [get_device_info, hs, h, isOk]
      | some gs =>
        have hlen : gs.length = 2 := searchInfoPattern_length o gs h
        simp [get_device_info, hs, h, hlen, isOk]

/-- C3 counterexample: the claim says every operation raises ParseFailure
on output that is neither a sentinel nor its success shape, and in
particular that setPropertyValue and sendCommand never return a true
acknowledgement on unrecognized output.  On the unrecognized output
"garbage" both operations return the success acknowledgement True. -/
theorem ack_ops_accept_garbage :
    set_property_data "garbage" = .ok true ∧
    send_command "garbage" = .ok true := by
  decide

/-- C3 amended: only the value-parsing operations raise ParseFailure on
output that is neither a sentinel nor their expected shape (for
get_property_data only once the output is non-empty, since empty output
retries instead); the acknowledgement operations set_property_data and
send_command return True on every output that is not one of their own
sentinel strings, as do turntable and set_properties_data whenever their
argument validation passes; and the descriptor operations never raise
ParseFailure: on any non-sentinel output they return the (possibly
empty) list of descriptors extracted from it. -/
theorem unrecognized_output_classification (o : String) :
    (o ≠ spdInvalidSentinel → o ≠ spdUnsupportedSentinel →
      o ≠ spdNotSupportedSentinel → set_property_data o = .ok true) ∧
    (o ≠ scInvalidSentinel → o ≠ scUnsupportedSentinel →
      o ≠ scNotSupportedSentinel → send_command o = .ok true) ∧
    (o ≠ ttInvalidSentinel → ∀ d sp dir st : Int,
      0 ≤ sp → sp ≤ 2 → (dir = 0 ∨ dir = 1) → 0 ≤ st → st ≤ 665535 →
      turntable d sp dir st o = (.ok true, 1)) ∧
    (o ≠ sprInvalidSentinel → o ≠ sprUnsupportedSentinel →
      o ≠ sprNotSupportedSentinel →
      ∀ (d : Int) (props : List Int) (v : Int),
      props.length ≠ 0 → props.length ≤ 20 →
      set_properties_data d props v o = (.ok true, 1)) ∧
    (o ≠ gcdInvalidSentinel →
      get_command_desc o = .ok ((findIds o.data).map cmdLookup)) ∧
    (o ≠ gpdescInvalidSentinel →
      get_property_desc o = .ok ((findIds o.data).map propLookup)) ∧
    (searchDeviceCount o = none →
      get_device_count o = .error .unexpectedOutput) ∧
    (o ≠ gdiInvalidSentinel → searchInfoPattern o = none →
      get_device_info o = .error .unexpectedOutput) ∧
    (o ≠ "" → o ≠ gpdInvalidSentinel → o ≠ gpdUnsupportedSentinel →
      o ≠ gpdNotSupportedSentinel → o.data.takeWhile Char.isDigit = [] →
      get_property_data [o] = some (.error .unexpectedOutput, 1)) := by
  refine ⟨?_, ?_, ?_, ?_, ?_, ?_, ?_, ?_, ?_⟩
  · intro h1 h2 h3
    simp [set_property_data, h1, h2, h3]
  · intro h1 h2 h3
    simp [send_command, h1, h2, h3]
  · intro h7 d sp dir st hsp1 hsp2 hdir hst1 hst2
    unfold turntable
    rw [if_neg (by omega), if_neg (by omega), if_neg (by omega), if_neg h7]
  · intro h1 h2 h3 d props v hp1 hp2
    unfold set_properties_data
    rw [if_neg hp1, if_neg (by omega), if_neg h1, if_neg h2, if_neg h3]
  · intro h
    simp [get_command_desc, h]
  · intro h
    simp [get_property_desc, h]
  · intro h
    simp [get_device_count, h]
  · intro h1 h2
    simp [get_device_info, h1, h2]
  · intro h11 h8 h9 h10 h12
    unfold get_property_data get_property_data_loop
    rw [if_neg h11, if_neg h8, if_neg h9, if_neg h10, h12]

/-- C3 witness. -/
theorem unrecognized_output_classification_witness :
    set_property_data "zzz" = .ok true ∧
    send_command "zzz" = .ok true ∧
    turntable 0 1 0 10 "zzz" = (.ok true, 1) ∧
    set_properties_data 0 [7] 5 "zzz" = (.ok true, 1) ∧
    get_command_desc "zzz" = .ok [] ∧
    get_property_desc "zzz" = .ok [] ∧
    get_device_count "zzz" = .error .unexpectedOutput ∧
    get_device_info "zzz" = .error .unexpectedOutput ∧
    get_property_data ["zzz"] = some (.error .unexpectedOutput, 1) := by
  have h := unrecognized_output_classification "zzz"
  refine ⟨h.1 (by decide) (by decide) (by decide),
    h.2.1 (by decide) (by decide) (by decide),
    h.2.2.1 (by decide) 0 1 0 10
      (by omega) (by omega) (Or.inl rfl) (by omega) (by omega),
    h.2.2.2.1 (by decide) (by decide) (by decide) 0 [7] 5
      (by decide) (by decide),
    ?_, ?_,
    h.2.2.2.2.2.2.1 (by decide),
    h.2.2.2.2.2.2.2.1 (by decide) (by decide),
    h.2.2.2.2.2.2.2.2 (by decide) (by decide) (by decide) (by decide)
      (by decide)⟩
  · rw [h.2.2.2.2.1 (by decide)]
    decide
  · rw [h.2.2.2.2.2.1 (by decide)]
    decide

/-- C4: get_property_data retries on empty output and only on empty
output: under a Transport returning "" twice and then "42" it makes
exactly three Transport calls and returns 42; under a Transport whose
first output is non-empty it settles after exactly one call. -/
theorem get_property_data_retries_on_empty_only :
    get_property_data ["", "", "42"] = some (.ok 42, 3) ∧
    ∀ (o : String) (rest : List String), o ≠ "" →
      ∃ r, get_property_data (o :: rest) = some (r, 1) := by
  constructor
  · decide
  · intro o rest ho
    unfold get_property_data get_property_data_loop
    rw [if_neg ho]
    split_ifs with h1 h2 h3
    · exact ⟨_, rfl⟩
    · exact ⟨_, rfl⟩
    · exact ⟨_, rfl⟩
    · cases hds : o.data.takeWhile Char.isDigit with
      | nil => exact ⟨_, rfl⟩
      | cons c cs => exact ⟨_, rfl⟩

/-- C4 witness. -/
theorem get_property_data_retries_witness :
    get_property_data ["", "", "42"] = some (.ok 42, 3) ∧
    ∃ r, get_property_data ["7"] = some (r, 1) := by
  exact ⟨get_property_data_retries_on_empty_only.1,
         get_property_data_retries_on_empty_only.2 "7" [] (by decide)⟩

/-- C5: sentinel classification is exact string equality and maps each
code to its typed failure: for get_property_data the 0x0040001 line gives
InvalidDevice (invalidId), the 0x004000a line OperationUnsupported
(getPropertyValueUnsupported) and the 0x0040005 line NotSupportedByDevice
(getPropertyDeviceNotSupportProperty), each after exactly one Transport
call; for get_device_info the 0x0040001 line gives InvalidDevice, never
ParseFailure. -/
theorem sentinel_classification :
    get_property_data [gpdInvalidSentinel] = some (.error .invalidId, 1) ∧
    get_property_data [gpdUnsupportedSentinel]
      = some (.error .getPropertyValueUnsupported, 1) ∧
    get_property_data [gpdNotSupportedSentinel]
      = some (.error .getPropertyDeviceNotSupportProperty, 1) ∧
    get_device_info gdiInvalidSentinel = .error .invalidId := by
  refine ⟨?_, ?_, ?_, ?_⟩ <;> decide

/-- C6: descriptor lookup is total: on any non-sentinel output both
descriptor operations succeed with the ordered per-id map of the static
table lookup; every id registered in a table maps to exactly its
registered descriptor, and every absent id maps to the Unknown variant,
so lookup never fails on any id. -/
theorem descriptor_lookup_total (o1 o2 : String)
    (hc : o1 ≠ gcdInvalidSentinel) (hp : o2 ≠ gpdescInvalidSentinel) :
    get_command_desc o1 = .ok ((findIds o1.data).map cmdLookup) ∧
    get_property_desc o2 = .ok ((findIds o2.data).map propLookup) ∧
    (∀ id c, command_dict id = some c → cmdLookup id = .known c) ∧
    (∀ id, command_dict id = none → cmdLookup id = .unknown) ∧
    (∀ id p, property_dict id = some p → propLookup id = .known p) ∧
    (∀ id, property_dict id = none → propLookup id = .unknown) := by
  refine ⟨?_, ?_, ?_, ?_, ?_, ?_⟩
  · simp [get_command_desc, hc]
  · simp [get_property_desc, hp]
  · intro id c h
    simp [cmdLookup, h]
  · intro id h
    simp [cmdLookup, h]
  · intro id p h
    simp [propLookup, h]
  · intro id h
    simp [propLookup, h]

/-- C6 witness. -/
theorem descriptor_lookup_total_witness :
    get_command_desc "12801\r\n99\r\n" = .ok
      [.known ⟨"otadDEVICE_COMMAND_CABLERLEASE_OFF", 12801,
               "Shutter Release OFF"⟩, .unknown] ∧
    get_property_desc "16643\r\n7\r\n" = .ok
      [.known ⟨"otadDEVICE_PROPERTY_TURNTABLE_TOTAL_STEPS", 16643,
               "Total step of turntable"⟩, .unknown] := by
  have h := descriptor_lookup_total "12801\r\n99\r\n" "16643\r\n7\r\n"
    (by decide) (by decide)
  constructor
  · rw [h.1]
    decide
  · rw [h.2.1]
    decide

/-- C7: turntable validates speed, then direction, then step before any
Transport invocation: any speed outside 0..2, any direction outside 0..1,
or any step outside 0..665535 (the literal source bound) yields the
corresponding ValueError with zero Transport calls, while in-range
arguments lead to exactly one Transport call. -/
theorem turntable_validates_before_transport
    (d sp dir st : Int) (t : String) :
    (sp < 0 ∨ 2 < sp →
      turntable d sp dir st t =
        (.error (.valueError "The range for speed is from 0 to 2"), 0)) ∧
    (0 ≤ sp → sp ≤ 2 → dir ≠ 0 → dir ≠ 1 →
      turntable d sp dir st t =
        (.error (.valueError
          "The accepted values for direction are 0 and 1."), 0)) ∧
    (0 ≤ sp → sp ≤ 2 → (dir = 0 ∨ dir = 1) → st < 0 ∨ 665535 < st →
      turntable d sp dir st t =
        (.error (.valueError "The range for step is from 0 to 665535"), 0)) ∧
    (0 ≤ sp → sp ≤ 2 → (dir = 0 ∨ dir = 1) → 0 ≤ st → st ≤ 665535 →
      (turntable d sp dir st t).2 = 1) := by
  refine ⟨?_, ?_, ?_, ?_⟩
  · intro h
    unfold turntable
    rw [if_pos h]
  · intro hs1 hs2 hd1 hd2
    unfold turntable
    rw [if_neg (by omega), if_pos ⟨hd1, hd2⟩]
  · intro hs1 hs2 hd hst
    unfold turntable
    rw [if_neg (by omega), if_neg (by omega), if_pos hst]
  · intro hs1 hs2 hd hst1 hst2
    unfold turntable
    rw [if_neg (by omega), if_neg (by omega), if_neg (by omega)]
    split_ifs <;> rfl

/-- C7 witness. -/
theorem turntable_validates_witness :
    turntable 0 3 0 0 "" =
      (.error (.valueError "The range for speed is from 0 to 2"), 0) ∧
    turntable 0 0 2 0 "" =
      (.error (.valueError
        "The accepted values for direction are 0 and 1."), 0) ∧
    turntable 0 0 0 665536 "" =
      (.error (.valueError "The range for step is from 0 to 665535"), 0) ∧
    (turntable 0 0 0 665535 "x").2 = 1 := by
  refine ⟨(turntable_validates_before_transport 0 3 0 0 "").1 (by omega),
    (turntable_validates_before_transport 0 0 2 0 "").2.1
      (by omega) (by omega) (by omega) (by omega),
    (turntable_validates_before_transport 0 0 0 665536 "").2.2.1
      (by omega) (by omega) (Or.inl rfl) (by omega),
    (turntable_validates_before_transport 0 0 0 665535 "x").2.2.2
      (by omega) (by omega) (Or.inl rfl) (by omega) (by omega)⟩

/-- C8: set_properties_data enforces the 1..20 bound on the property list
before any Transport invocation: an empty list, and any list of 21 or
more ids, yield the corresponding ValueError with zero Transport calls. -/
theorem set_properties_validates_size
    (d : Int) (props : List Int) (v : Int) (t : String) :
    (props.length = 0 →
      set_properties_data d props v t =
        (.error (.valueError "At least one property should be specified"),
         0)) ∧
    (21 ≤ props.length →
      set_properties_data d props v t =
        (.error (.valueError
          "Maximum of 20 properties can be set at a time"), 0)) := by
  constructor
  · intro h
    unfold set_properties_data
    rw [if_pos h]
  · intro h
    unfold set_properties_data
    rw [if_neg (by omega), if_pos (by omega)]

/-- C8 witness. -/
theorem set_properties_validates_witness :
    set_properties_data 0 [] 5 "x" =
      (.error (.valueError "At least one property should be specified"),
       0) ∧
    set_properties_data 0 (List.replicate 21 0) 5 "x" =
      (.error (.valueError
        "Maximum of 20 properties can be set at a time"), 0) := by
  exact ⟨(set_properties_validates_size 0 [] 5 "x").1 rfl,
    (set_properties_validates_size 0 (List.replicate 21 0) 5 "x").2
      (by simp)⟩

/-- Sanity anchor: on concrete inputs the built command is exactly the
string the source f-strings produce, character for character. -/
theorem build_command_flattened :
    SSHOptions.build_command ⟨"usr", "hst", some "pw"⟩ "OTADCommand.exe x" =
      "sshpass -p \x27pw\x27 ssh -o StrictHostKeyChecking=no -o LogLevel=QUIET usr@hst \"OTADCommand.exe x\"" := by
  decide

/-- C9: for every user u, host hst, non-empty password p and inner
command X, the built SSH command contains the password-injection text
with the literal password, the user-at-host text, the literal inner
command, and the StrictHostKeyChecking=no option. -/
theorem build_command_round_trip (u hst p X : String) (hp : p ≠ "") :
    containsStr (SSHOptions.build_command ⟨u, hst, some p⟩ X)
      ("sshpass -p \x27" ++ p ++ "\x27") ∧
    containsStr (SSHOptions.build_command ⟨u, hst, some p⟩ X)
      (u ++ "@" ++ hst) ∧
    containsStr (SSHOptions.build_command ⟨u, hst, some p⟩ X) X ∧
    containsStr (SSHOptions.build_command ⟨u, hst, some p⟩ X)
      "StrictHostKeyChecking=no" := by
  have hb : SSHOptions.build_command ⟨u, hst, some p⟩ X =
      "sshpass -p \x27" ++ p ++ "\x27" ++ " " ++ "ssh -o "
        ++ "StrictHostKeyChecking=no" ++ " -o LogLevel=QUIET "
        ++ u ++ "@" ++ hst ++ " \"" ++ X ++ "\"" := by
    simp [SSHOptions.build_command, hp]
  rw [hb]
  refine ⟨?_, ?_, ?_, ?_⟩
  · exact ⟨[], (" " ++ "ssh -o " ++ "StrictHostKeyChecking=no"
        ++ " -o LogLevel=QUIET " ++ u ++ "@" ++ hst ++ " \"" ++ X
        ++ "\"").data,
      by simp [containsStr, String.data_append]⟩
  · exact ⟨("sshpass -p \x27" ++ p ++ "\x27" ++ " " ++ "ssh -o "
        ++ "StrictHostKeyChecking=no" ++ " -o LogLevel=QUIET ").data,
      (" \"" ++ X ++ "\"").data,
      by simp [containsStr, String.data_append]⟩
  · exact ⟨("sshpass -p \x27" ++ p ++ "\x27" ++ " " ++ "ssh -o "
        ++ "StrictHostKeyChecking=no" ++ " -o LogLevel=QUIET "
        ++ u ++ "@" ++ hst ++ " \"").data,
      ("\"" : String).data,
      by simp [containsStr, String.data_append]⟩
  · exact ⟨("sshpass -p \x27" ++ p ++ "\x27" ++ " " ++ "ssh -o ").data,
      (" -o LogLevel=QUIET " ++ u ++ "@" ++ hst ++ " \"" ++ X
        ++ "\"").data,
      by simp [containsStr, String.data_append]⟩

/-- C9 witness. -/
theorem build_command_round_trip_witness :
    containsStr (SSHOptions.build_command ⟨"u", "h", some "p"⟩ "X")
      ("sshpass -p \x27" ++ "p" ++ "\x27") ∧
    containsStr (SSHOptions.build_command ⟨"u", "h", some "p"⟩ "X")
      ("u" ++ "@" ++ "h") ∧
    containsStr (SSHOptions.build_command ⟨"u", "h", some "p"⟩ "X") "X" ∧
    containsStr (SSHOptions.build_command ⟨"u", "h", some "p"⟩ "X")
      "StrictHostKeyChecking=no" :=
  build_command_round_trip "u" "h" "p" "X" (by decide)

/-- C10: an empty password is treated exactly like no password: the
built command is identical in the two cases and carries no sshpass
password-injection text at all — the command starts directly with the
ssh invocation. -/
theorem build_command_empty_password (u hst X : String) :
    SSHOptions.build_command ⟨u, hst, some ""⟩ X =
      SSHOptions.build_command ⟨u, hst, none⟩ X ∧
    SSHOptions.build_command ⟨u, hst, some ""⟩ X =
      "ssh -o " ++ "StrictHostKeyChecking=no" ++ " -o LogLevel=QUIET "
        ++ u ++ "@" ++ hst ++ " \"" ++ X ++ "\"" := by
  constructor
  · simp [SSHOptions.build_command]
  · simp [SSHOptions.build_command, String.empty_append]

end Ortery
